import Mathlib

/-!
# Verification development for `internal/llm`

A shallow embedding of the Go package `internal/llm` (prompt builder, retrying
generation engine, Ollama provider, comparison fan-out) together with theorems
about it.  Go strings are embedded as Lean strings, Go `int` as `Int` with an
explicit 64-bit wrap, Go `error` values as the inductive `GoError`.
-/

namespace Llm

/-! ## prompt.go -/

/-- Go struct `PromptComponent` of prompt.go. -/
structure PromptComponent where
  Content : String
  Type_ : String
  deriving DecidableEq, Repr

/-- Go struct `Prompt` of prompt.go: the ordered slice of components. -/
structure Prompt where
  Components : List PromptComponent
  deriving DecidableEq, Repr

/-- Go `NewPrompt`: one component of type "instruction". -/
def NewPrompt (input : String) : Prompt :=
  { Components := [{ Content := input, Type_ := "instruction" }] }

/-- Go `(*Prompt).WithContext`: appends a component of type "context". -/
def Prompt.WithContext (p : Prompt) (context : String) : Prompt :=
  { Components := p.Components ++ [{ Content := context, Type_ := "context" }] }

/-- Go `(*Prompt).WithDirective`: appends a component of type "directive". -/
def Prompt.WithDirective (p : Prompt) (directive : String) : Prompt :=
  { Components := p.Components ++ [{ Content := directive, Type_ := "directive" }] }

/-- Go `(*Prompt).WithOutput`: appends a component of type "output". -/
def Prompt.WithOutput (p : Prompt) (output : String) : Prompt :=
  { Components := p.Components ++ [{ Content := output, Type_ := "output" }] }

/-- Go `(*Prompt).WithExample`: appends a component of type "example". -/
def Prompt.WithExample (p : Prompt) (example_ : String) : Prompt :=
  { Components := p.Components ++ [{ Content := example_, Type_ := "example" }] }

/-- The body of the `switch component.Type_` of `(*Prompt).String`: the string
appended to `parts` for one component. -/
def renderComponent (component : PromptComponent) : String :=
  if component.Type_ = "instruction" then component.Content
  else if component.Type_ = "context" then "Context: " ++ component.Content
  else if component.Type_ = "directive" then "Directive: " ++ component.Content
  else if component.Type_ = "output" then "Expected Output: " ++ component.Content
  else if component.Type_ = "example" then "Example: " ++ component.Content
  else component.Type_ ++ ": " ++ component.Content

/-- The `for ... range p.Components` loop of `(*Prompt).String`, accumulating
`parts` by `append`. -/
def stringParts : List String → List PromptComponent → List String
  | parts, [] => parts
  | parts, component :: rest => stringParts (parts ++ [renderComponent component]) rest

/-- Go `strings.Join(elems, sep)`. -/
def stringsJoin : List String → String → String
  | [], _ => ""
  | e :: rest, sep => rest.foldl (fun acc x => acc ++ sep ++ x) e

/-- Go `(*Prompt).String`. -/
def Prompt.String (p : Prompt) : String :=
  stringsJoin (stringParts [] p.Components) "\n\n"

/-- One of the four chainable builder calls, with its argument. -/
inductive BuilderCall where
  | withContext (s : String)
  | withDirective (s : String)
  | withOutput (s : String)
  | withExample (s : String)
  deriving DecidableEq, Repr

/-- Applies one builder call to a prompt. -/
def BuilderCall.apply (p : Prompt) : BuilderCall → Prompt
  | .withContext s => p.WithContext s
  | .withDirective s => p.WithDirective s
  | .withOutput s => p.WithOutput s
  | .withExample s => p.WithExample s

/-- The label that the rendering puts in front of the section a call appends. -/
def BuilderCall.label : BuilderCall → String
  | .withContext _ => "Context: "
  | .withDirective _ => "Directive: "
  | .withOutput _ => "Expected Output: "
  | .withExample _ => "Example: "

/-- The content of the section a call appends. -/
def BuilderCall.content : BuilderCall → String
  | .withContext s => s
  | .withDirective s => s
  | .withOutput s => s
  | .withExample s => s

/-- A prompt built by `NewPrompt input` followed by the calls, in order. -/
def buildPrompt (input : String) (calls : List BuilderCall) : Prompt :=
  calls.foldl BuilderCall.apply (NewPrompt input)

/-- The rendering of one section as the specification words it: the label of
the type, then the content. -/
def sectionRendering (ty content : String) : String :=
  if ty = "instruction" then content
  else if ty = "context" then "Context: " ++ content
  else if ty = "directive" then "Directive: " ++ content
  else if ty = "output" then "Expected Output: " ++ content
  else if ty = "example" then "Example: " ++ content
  else ty ++ ": " ++ content

/-! ## Go values used by llm.go -/

/-- The `ErrorType` constants that llm.go passes to `NewLLMError`. -/
inductive ErrorType where
  | ErrorTypeRequest
  | ErrorTypeResponse
  | ErrorTypeAPI
  deriving DecidableEq, Repr

/-- Go `error` values (non-nil).  `errorString` is an error of the environment
(transport, context, JSON, registry) known by its message; `wrapError` is what
`fmt.Errorf` builds for a `%w` verb (the formatted message and the wrapped
error); `llmError` and `llmErrorNil` are the `*LLMError` built by
`NewLLMError` with a non-nil and with a nil cause. -/
inductive GoError where
  | errorString (msg : String)
  | wrapError (msg : String) (err : GoError)
  | llmError (errType : ErrorType) (message : String) (err : GoError)
  | llmErrorNil (errType : ErrorType) (message : String)
  deriving DecidableEq, Repr

/-- Modelled from the spec: `NewLLMError` of errors.go, which is not among the
sources; it builds the typed error carrying the type, the message and the
cause (possibly nil) it is given. -/
def NewLLMError (errType : ErrorType) (message : String) (err : Option GoError) : GoError :=
  match err with
  | some e => .llmError errType message e
  | none => .llmErrorNil errType message

/-- The `Error()` method.  The text of an `*LLMError` is produced by errors.go,
which is not among the sources, so it is the parameter `llmText` (type, message,
text of the cause if any). -/
def GoError.Error (llmText : ErrorType → String → Option String → String) : GoError → String
  | .errorString msg => msg
  | .wrapError msg _ => msg
  | .llmError t m e => llmText t m (some (e.Error llmText))
  | .llmErrorNil t m => llmText t m none

/-- Go `errors.Unwrap`-style cause of an error, if it has one. -/
def GoError.Unwrap : GoError → Option GoError
  | .errorString _ => none
  | .wrapError _ e => some e
  | .llmError _ _ e => some e
  | .llmErrorNil _ _ => none

/-- The type carried by an `*LLMError`, none for other errors. -/
def GoError.llmType : GoError → Option ErrorType
  | .llmError t _ _ => some t
  | .llmErrorNil t _ => some t
  | _ => none

/-- The message carried by an `*LLMError`, none for other errors. -/
def GoError.llmMessage : GoError → Option String
  | .llmError _ m _ => some m
  | .llmErrorNil _ m => some m
  | _ => none

/-- Go `fmt.Errorf(format + "%w", err)` where `pre` is the already formatted
text before the verb: a non-nil error is wrapped; a nil operand is not an
error value, so the verb prints as a bad verb and nothing is wrapped. -/
def fmtErrorfW (llmText : ErrorType → String → Option String → String)
    (pre : String) (err : Option GoError) : GoError :=
  match err with
  | some e => .wrapError (pre ++ e.Error llmText) e
  | none => .errorString (pre ++ "%!w(<nil>)")

/-- Go `%d` of an integer. -/
def fmtD (n : Int) : String := toString n

/-- Go `int` arithmetic on a 64-bit platform: the result of an addition wraps
into the range -2^63 .. 2^63 - 1. -/
def wrapInt (x : Int) : Int :=
  (x + 9223372036854775808) % 18446744073709551616 - 9223372036854775808

/-- Go `map[string]T`, as the list of its entries in the order a `range` over
it visits them; a map has no two entries with the same key. -/
abbrev GoMap (T : Type) := List (String × T)

/-- Go `m[k]` read (with the comma-ok result as an option). -/
def GoMap.get {T : Type} (m : GoMap T) (k : String) : Option T :=
  match m with
  | [] => none
  | (k1, v1) :: rest => if k1 = k then some v1 else GoMap.get rest k

/-- Go `m[k] = v`: overwrites the entry of `k` or adds one. -/
def GoMap.set {T : Type} (m : GoMap T) (k : String) (v : T) : GoMap T :=
  match m with
  | [] => [(k, v)]
  | (k1, v1) :: rest => if k1 = k then (k, v) :: rest else (k1, v1) :: GoMap.set rest k v

/-- The keys of a map. -/
def GoMap.keys {T : Type} (m : GoMap T) : List String := m.map Prod.fst

/-! ## llm.go -/

/-- Go interface `Provider`; `V` is the type of the option values
(`interface{}` in the source), bodies are strings. -/
structure Provider (V : Type) where
  Name : String
  Endpoint : String
  Headers : GoMap String
  PrepareRequest : String → GoMap V → String × Option GoError
  ParseResponse : String → String × Option GoError

/-- The fields of `LLMImpl` that `Generate` reads.  The HTTP client is the
environment `Env`; the logger only receives messages. -/
structure LLMImpl (V : Type) where
  Provider : Provider V
  Options : GoMap V
  MaxRetries : Int
  RetryDelay : Int

/-- An outgoing HTTP request as `attemptGenerate` builds it. -/
structure HttpRequest where
  Method : String
  URL : String
  Header : GoMap String
  Body : String
  deriving DecidableEq, Repr

/-- An `*http.Response` as `attemptGenerate` reads it: the status code and the
result of `io.ReadAll(resp.Body)`. -/
structure HttpResponse where
  StatusCode : Int
  ReadAll : String × Option GoError
  deriving DecidableEq, Repr

/-- What a `select` on `ctx.Done()` and `time.After(d)` took: the context was
done (with `ctx.Err()`), or the timer fired. -/
inductive WaitOutcome where
  | ctxDone (ctxErr : GoError)
  | elapsed
  deriving DecidableEq, Repr

/-- The environment of one `Generate` call: for the n-th attempt (from 0) the
error of `http.NewRequestWithContext` and the result of `client.Do`, and for the
n-th wait (from 0) of a given duration what the `select` took. -/
structure Env where
  newRequest : Nat → String → String → String → Option GoError
  clientDo : Nat → HttpRequest → Except GoError HttpResponse
  wait : Nat → Int → WaitOutcome

/-- Go `http.StatusOK`. -/
def StatusOK : Int := 200

/-- The header loop of `attemptGenerate`: `req.Header.Set(k, v)` for every
entry of `Headers()`. -/
def setHeaders (h : GoMap String) : GoMap String → GoMap String
  | [] => h
  | (k, v) :: rest => setHeaders (GoMap.set h k v) rest

/-- Go `(*LLMImpl).SetOption`. -/
def LLMImpl.SetOption {V : Type} (l : LLMImpl V) (key : String) (value : V) : LLMImpl V :=
  { l with Options := GoMap.set l.Options key value }

/-- Go `(*LLMImpl).attemptGenerate`, for the attempt number `n` (from 0) of the
call. -/
def LLMImpl.attemptGenerate {V : Type} (l : LLMImpl V) (env : Env) (n : Nat)
    (prompt : String) : String × Option GoError :=
  match l.Provider.PrepareRequest prompt l.Options with
  | (_, some err) =>
    ("", some (NewLLMError .ErrorTypeRequest "failed to prepare request" (some err)))
  | (reqBody, none) =>
    match env.newRequest n "POST" l.Provider.Endpoint reqBody with
    | some err =>
      ("", some (NewLLMError .ErrorTypeRequest "failed to create request" (some err)))
    | none =>
      let req : HttpRequest :=
        { Method := "POST", URL := l.Provider.Endpoint,
          Header := setHeaders [] l.Provider.Headers, Body := reqBody }
      match env.clientDo n req with
      | .error err =>
        ("", some (NewLLMError .ErrorTypeRequest "failed to send request" (some err)))
      | .ok resp =>
        match resp.ReadAll with
        | (_, some err) =>
          ("", some (NewLLMError .ErrorTypeResponse "failed to read response body" (some err)))
        | (body, none) =>
          if resp.StatusCode ≠ StatusOK then
            ("", some (NewLLMError .ErrorTypeAPI
              ("API error: status code " ++ fmtD resp.StatusCode) none))
          else
            match l.Provider.ParseResponse body with
            | (_, some err) =>
              ("", some (NewLLMError .ErrorTypeResponse "failed to parse response" (some err)))
            | (result, none) => (result, none)

/-- What `Generate` did, in order: an attempt, a wait that ran to the end of
the given delay, a wait that the context ended. -/
inductive Event where
  | attempt
  | waited (delay : Int)
  | ctxDone
  deriving DecidableEq, Repr

/-- The three results of `Generate`, and the trace of what the call did. -/
structure GenResult where
  response : String
  fullPrompt : String
  err : Option GoError
  trace : List Event
  deriving DecidableEq, Repr

/-- The `for attempt := 0; attempt <= l.MaxRetries; attempt++` loop of
`(*LLMImpl).Generate` and the return after it.  `attempt` is the loop variable,
`calls` and `waits` count the attempts and waits made so far, `lastErr` is the
variable of that name.  One unit of fuel is used per evaluation of the loop
condition. -/
def LLMImpl.generateLoop {V : Type} (l : LLMImpl V)
    (llmText : ErrorType → String → Option String → String) (env : Env)
    (prompt : Prompt) (promptString : String) :
    Nat → Int → Nat → Nat → Option GoError → List Event → Option GenResult
  | 0, _, _, _, _, _ => none
  | fuel + 1, attempt, calls, waits, lastErr, trace =>
    if attempt ≤ l.MaxRetries then
      match l.attemptGenerate env calls prompt.String with
      | (result, none) =>
        some { response := result, fullPrompt := promptString, err := none,
               trace := trace ++ [.attempt] }
      | (_, some err) =>
        if attempt < l.MaxRetries then
          match env.wait waits l.RetryDelay with
          | .ctxDone ctxErr =>
            some { response := "", fullPrompt := promptString, err := some ctxErr,
                   trace := trace ++ [.attempt, .ctxDone] }
          | .elapsed =>
            l.generateLoop llmText env prompt promptString fuel (wrapInt (attempt + 1))
              (calls + 1) (waits + 1) (some err) (trace ++ [.attempt, .waited l.RetryDelay])
        else
          l.generateLoop llmText env prompt promptString fuel (wrapInt (attempt + 1))
            (calls + 1) waits (some err) (trace ++ [.attempt])
    else
      some { response := "", fullPrompt := promptString,
             err := some (fmtErrorfW llmText
               ("failed to generate after " ++ fmtD (wrapInt (l.MaxRetries + 1)) ++ " attempts: ")
               lastErr),
             trace := trace }

/-- Go `(*LLMImpl).Generate`; `none` when the fuel runs out before the call
returns. -/
def LLMImpl.Generate {V : Type} (l : LLMImpl V)
    (llmText : ErrorType → String → Option String → String) (env : Env)
    (fuel : Nat) (prompt : Prompt) : Option GenResult :=
  l.generateLoop llmText env prompt prompt.String fuel 0 0 0 none []

/-! ## encoding/json: the decoder calls made by `ParseResponse`

`ParseResponse` drives a `json.Decoder` over the body through `More` and
`Decode`.  The decoder is library code; it is embedded here as far as those two
calls go: the scanner of scanner.go as a state machine (it finds the end of the
next value and rejects malformed text), and the storing of a scanned value into
the three-field response struct.  Bodies are sequences of characters.  The
texts of the library's errors are abbreviated. -/

/-- The scanner's result codes (scanner.go). -/
inductive ScanOp where
  | scanContinue | scanBeginLiteral | scanBeginObject | scanObjectKey | scanObjectValue
  | scanEndObject | scanBeginArray | scanArrayValue | scanEndArray | scanSkipSpace
  | scanEnd | scanError
  deriving DecidableEq, Repr

/-- The entries of the scanner's parse stack. -/
inductive ParseState where
  | parseObjectKey | parseObjectValue | parseArrayValue
  deriving DecidableEq, Repr

/-- The scanner's state functions, as values. -/
inductive StepFn where
  | stateBeginValueOrEmpty | stateBeginValue | stateBeginStringOrEmpty | stateBeginString
  | stateEndValue | stateEndTop | stateInString | stateInStringEsc
  | stateInStringEscU | stateInStringEscU1 | stateInStringEscU12 | stateInStringEscU123
  | stateNeg | state1 | state0 | stateDot | stateDot0 | stateE | stateESign | stateE0
  | stateT | stateTr | stateTru | stateF | stateFa | stateFal | stateFals
  | stateN | stateNu | stateNul | stateError
  deriving DecidableEq, Repr

/-- The scanner: the next state function, the parse stack (innermost entry
first) and the recorded error. -/
structure Scanner where
  step : StepFn
  parseState : List ParseState
  err : Option GoError
  deriving DecidableEq, Repr

/-- Go `maxNestingDepth`. -/
def maxNestingDepth : Nat := 10000

/-- Go `isSpace`. -/
def isSpace (c : Char) : Bool :=
  c = ' ' || c = '\t' || c = '\r' || c = '\n'

/-- A decimal digit. -/
def isDigit (c : Char) : Bool := 48 ≤ c.toNat && c.toNat ≤ 57

/-- A digit from 1 to 9. -/
def isDigit19 (c : Char) : Bool := 49 ≤ c.toNat && c.toNat ≤ 57

/-- A hexadecimal digit. -/
def isHex (c : Char) : Bool :=
  isDigit c || (97 ≤ c.toNat && c.toNat ≤ 102) || (65 ≤ c.toNat && c.toNat ≤ 70)

/-- Go `(*scanner).reset`. -/
def Scanner.reset : Scanner :=
  { step := .stateBeginValue, parseState := [], err := none }

/-- Go `(*scanner).error`: records a syntax error and kills the scanner. -/
def Scanner.error (s : Scanner) (c : Char) (context : String) : Scanner × ScanOp :=
  ({ s with step := .stateError,
            err := some (.errorString
              ("invalid character " ++ String.singleton c ++ " " ++ context)) },
   .scanError)

/-- Go `(*scanner).pushParseState`. -/
def Scanner.pushParseState (s : Scanner) (c : Char) (newParseState : ParseState)
    (successState : ScanOp) : Scanner × ScanOp :=
  let s1 := { s with parseState := newParseState :: s.parseState }
  if s1.parseState.length ≤ maxNestingDepth then (s1, successState)
  else s1.error c "exceeded max depth"

/-- Go `(*scanner).popParseState`. -/
def Scanner.popParseState (s : Scanner) : Scanner :=
  let rest := s.parseState.tail
  if rest.length = 0 then { s with parseState := rest, step := .stateEndTop }
  else { s with parseState := rest, step := .stateEndValue }

/-- Go `stateEndTop`: a non-space character is recorded as an error for the
next call, the result is `scanEnd` either way. -/
def stateEndTop (s : Scanner) (c : Char) : Scanner × ScanOp :=
  if !isSpace c then ((s.error c "after top-level value").1, .scanEnd)
  else (s, .scanEnd)

/-- Go `stateEndValue`. -/
def stateEndValue (s : Scanner) (c : Char) : Scanner × ScanOp :=
  match s.parseState with
  | [] => stateEndTop { s with step := .stateEndTop } c
  | ps :: rest =>
    if isSpace c then ({ s with step := .stateEndValue }, .scanSkipSpace)
    else
      match ps with
      | .parseObjectKey =>
        if c = ':' then
          ({ s with parseState := .parseObjectValue :: rest, step := .stateBeginValue },
           .scanObjectKey)
        else s.error c "after object key"
      | .parseObjectValue =>
        if c = ',' then
          ({ s with parseState := .parseObjectKey :: rest, step := .stateBeginString },
           .scanObjectValue)
        else if c = '}' then (s.popParseState, .scanEndObject)
        else s.error c "after object key:value pair"
      | .parseArrayValue =>
        if c = ',' then ({ s with step := .stateBeginValue }, .scanArrayValue)
        else if c = ']' then (s.popParseState, .scanEndArray)
        else s.error c "after array element"

/-- Go `stateBeginValue`. -/
def stateBeginValue (s : Scanner) (c : Char) : Scanner × ScanOp :=
  if isSpace c then (s, .scanSkipSpace)
  else if c = '{' then
    Scanner.pushParseState { s with step := .stateBeginStringOrEmpty } c .parseObjectKey
      .scanBeginObject
  else if c = '[' then
    Scanner.pushParseState { s with step := .stateBeginValueOrEmpty } c .parseArrayValue
      .scanBeginArray
  else if c = '"' then ({ s with step := .stateInString }, .scanBeginLiteral)
  else if c = '-' then ({ s with step := .stateNeg }, .scanBeginLiteral)
  else if c = '0' then ({ s with step := .state0 }, .scanBeginLiteral)
  else if c = 't' then ({ s with step := .stateT }, .scanBeginLiteral)
  else if c = 'f' then ({ s with step := .stateF }, .scanBeginLiteral)
  else if c = 'n' then ({ s with step := .stateN }, .scanBeginLiteral)
  else if isDigit19 c then ({ s with step := .state1 }, .scanBeginLiteral)
  else s.error c "looking for beginning of value"

/-- Go `stateBeginValueOrEmpty`. -/
def stateBeginValueOrEmpty (s : Scanner) (c : Char) : Scanner × ScanOp :=
  if isSpace c then (s, .scanSkipSpace)
  else if c = ']' then stateEndValue s c
  else stateBeginValue s c

/-- Go `stateBeginString`. -/
def stateBeginString (s : Scanner) (c : Char) : Scanner × ScanOp :=
  if isSpace c then (s, .scanSkipSpace)
  else if c = '"' then ({ s with step := .stateInString }, .scanBeginLiteral)
  else s.error c "looking for beginning of object key string"

/-- Go `stateBeginStringOrEmpty`. -/
def stateBeginStringOrEmpty (s : Scanner) (c : Char) : Scanner × ScanOp :=
  if isSpace c then (s, .scanSkipSpace)
  else if c = '}' then
    stateEndValue { s with parseState := .parseObjectValue :: s.parseState.tail } c
  else stateBeginString s c

/-- Go `state0`: after the integer part of a number. -/
def state0 (s : Scanner) (c : Char) : Scanner × ScanOp :=
  if c = '.' then ({ s with step := .stateDot }, .scanContinue)
  else if c = 'e' || c = 'E' then ({ s with step := .stateE }, .scanContinue)
  else stateEndValue s c

/-- Go `stateESign`. -/
def stateESign (s : Scanner) (c : Char) : Scanner × ScanOp :=
  if isDigit c then ({ s with step := .stateE0 }, .scanContinue)
  else s.error c "in exponent of numeric literal"

/-- One letter of a literal name: on `want` go to `next`. -/
def stateLetter (s : Scanner) (c want : Char) (next : StepFn) (context : String) :
    Scanner × ScanOp :=
  if c = want then ({ s with step := next }, .scanContinue) else s.error c context

/-- One hexadecimal digit of a `\u` escape: go to `next`. -/
def stateHex (s : Scanner) (c : Char) (next : StepFn) : Scanner × ScanOp :=
  if isHex c then ({ s with step := next }, .scanContinue)
  else s.error c "in \\u hexadecimal character escape"

/-- The call `s.step(s, c)`: the state function held by the scanner, applied. -/
def Scanner.run (s : Scanner) (c : Char) : Scanner × ScanOp :=
  match s.step with
  | .stateBeginValueOrEmpty => stateBeginValueOrEmpty s c
  | .stateBeginValue => stateBeginValue s c
  | .stateBeginStringOrEmpty => stateBeginStringOrEmpty s c
  | .stateBeginString => stateBeginString s c
  | .stateEndValue => stateEndValue s c
  | .stateEndTop => stateEndTop s c
  | .stateInString =>
    if c = '"' then ({ s with step := .stateEndValue }, .scanContinue)
    else if c = '\\' then ({ s with step := .stateInStringEsc }, .scanContinue)
    else if c.toNat < 32 then s.error c "in string literal"
    else (s, .scanContinue)
  | .stateInStringEsc =>
    if c = 'b' || c = 'f' || c = 'n' || c = 'r' || c = 't' || c = '\\' || c = '/' || c = '"'
    then ({ s with step := .stateInString }, .scanContinue)
    else if c = 'u' then ({ s with step := .stateInStringEscU }, .scanContinue)
    else s.error c "in string escape code"
  | .stateInStringEscU => stateHex s c .stateInStringEscU1
  | .stateInStringEscU1 => stateHex s c .stateInStringEscU12
  | .stateInStringEscU12 => stateHex s c .stateInStringEscU123
  | .stateInStringEscU123 => stateHex s c .stateInString
  | .stateNeg =>
    if c = '0' then ({ s with step := .state0 }, .scanContinue)
    else if isDigit19 c then ({ s with step := .state1 }, .scanContinue)
    else s.error c "in numeric literal"
  | .state1 =>
    if isDigit c then ({ s with step := .state1 }, .scanContinue) else state0 s c
  | .state0 => state0 s c
  | .stateDot =>
    if isDigit c then ({ s with step := .stateDot0 }, .scanContinue)
    else s.error c "after decimal point in numeric literal"
  | .stateDot0 =>
    if isDigit c then (s, .scanContinue)
    else if c = 'e' || c = 'E' then ({ s with step := .stateE }, .scanContinue)
    else stateEndValue s c
  | .stateE =>
    if c = '+' || c = '-' then ({ s with step := .stateESign }, .scanContinue)
    else stateESign s c
  | .stateESign => stateESign s c
  | .stateE0 => if isDigit c then (s, .scanContinue) else stateEndValue s c
  | .stateT => stateLetter s c 'r' .stateTr "in literal true (expecting r)"
  | .stateTr => stateLetter s c 'u' .stateTru "in literal true (expecting u)"
  | .stateTru => stateLetter s c 'e' .stateEndValue "in literal true (expecting e)"
  | .stateF => stateLetter s c 'a' .stateFa "in literal false (expecting a)"
  | .stateFa => stateLetter s c 'l' .stateFal "in literal false (expecting l)"
  | .stateFal => stateLetter s c 's' .stateFals "in literal false (expecting s)"
  | .stateFals => stateLetter s c 'e' .stateEndValue "in literal false (expecting e)"
  | .stateN => stateLetter s c 'u' .stateNu "in literal null (expecting u)"
  | .stateNu => stateLetter s c 'l' .stateNul "in literal null (expecting l)"
  | .stateNul => stateLetter s c 'l' .stateEndValue "in literal null (expecting l)"
  | .stateError => (s, .scanError)

/-- The error of a scanner that reported `scanError`. -/
def Scanner.errOr (s : Scanner) : GoError :=
  match s.err with
  | some e => e
  | none => .errorString "invalid JSON"

/-- The loop of Go `(*Decoder).readValue` over the unread input: the number of
characters of the next value (leading space included), or the error.  `n` counts
the characters consumed so far.  At the end of the input a space is fed to the
scanner: the value is complete if that ends it, otherwise the input ended early
(`io.ErrUnexpectedEOF`, or `io.EOF` when it held nothing but space). -/
def readValueLoop (s : Scanner) : List Char → Nat → List Char → Except GoError Nat
  | all, n, [] =>
    if (s.run ' ').2 = .scanEnd then .ok n
    else if all.any (fun c => !isSpace c) then .error (.errorString "unexpected EOF")
    else .error (.errorString "EOF")
  | all, n, c :: cs =>
    match s.run c with
    | (_, .scanEnd) => .ok n
    | (s1, .scanEndObject) =>
      if (stateEndValue s1 ' ').2 = .scanEnd then .ok (n + 1)
      else readValueLoop (stateEndValue s1 ' ').1 all (n + 1) cs
    | (s1, .scanEndArray) =>
      if (stateEndValue s1 ' ').2 = .scanEnd then .ok (n + 1)
      else readValueLoop (stateEndValue s1 ' ').1 all (n + 1) cs
    | (s1, .scanError) => .error s1.errOr
    | (s1, _) => readValueLoop s1 all (n + 1) cs

/-- Go `(*Decoder).readValue` on the unread input `buf`. -/
def readValue (buf : List Char) : Except GoError Nat :=
  readValueLoop Scanner.reset buf 0 buf

/-! ## Sample values used to instantiate the theorems -/

/-- A provider that sends the prompt as the request body and returns the
response body as the text. -/
def sampleProvider : Provider Nat :=
  { Name := "sample"
    Endpoint := "http://sample.invalid/api"
    Headers := [("Content-Type", "application/json")]
    PrepareRequest := fun prompt _ => (prompt, none)
    ParseResponse := fun body => (body, none) }

/-- An engine over `sampleProvider` with the given retry budget. -/
def sampleLLM (maxRetries : Int) : LLMImpl Nat :=
  { Provider := sampleProvider, Options := [], MaxRetries := maxRetries, RetryDelay := 1000 }

/-- A rendering of `*LLMError` values: the message, then the cause. -/
def sampleLLMText : ErrorType → String → Option String → String :=
  fun _ message cause =>
    match cause with
    | some c => message ++ ": " ++ c
    | none => message

/-- An environment in which every request fails in transport and every wait
runs to its end. -/
def refusingEnv : Env :=
  { newRequest := fun _ _ _ _ => none
    clientDo := fun _ _ => .error (.errorString "connection refused")
    wait := fun _ _ => .elapsed }

/-- An environment in which the first two requests fail in transport, the third
is answered with status 200 and body "pong", and every wait runs to its end. -/
def thirdTimeEnv : Env :=
  { newRequest := fun _ _ _ _ => none
    clientDo := fun n _ =>
      if n < 2 then .error (.errorString "connection refused")
      else .ok { StatusCode := 200, ReadAll := ("pong", none) }
    wait := fun _ _ => .elapsed }

/-- An environment in which every request fails in transport and the context
is cancelled during the second wait. -/
def cancellingEnv : Env :=
  { newRequest := fun _ _ _ _ => none
    clientDo := fun _ _ => .error (.errorString "connection refused")
    wait := fun n _ => if n = 1 then .ctxDone (.errorString "context canceled") else .elapsed }

/-- An environment in which every request is answered with status 201 and
body "pong". -/
def createdEnv : Env :=
  { newRequest := fun _ _ _ _ => none
    clientDo := fun _ _ => .ok { StatusCode := 201, ReadAll := ("pong", none) }
    wait := fun _ _ => .elapsed }

/-- The engine `l` with the `ParseResponse` of its provider replaced. -/
def LLMImpl.withParseResponse {V : Type} (l : LLMImpl V)
    (parse : String → String × Option GoError) : LLMImpl V :=
  { l with Provider := { l.Provider with ParseResponse := parse } }

/-- The request `attemptGenerate` sends for a prepared body. -/
def LLMImpl.request {V : Type} (l : LLMImpl V) (reqBody : String) : HttpRequest :=
  { Method := "POST", URL := l.Provider.Endpoint,
    Header := setHeaders [] l.Provider.Headers, Body := reqBody }

/-! # Theorems -/

/-! ## Theorems: prompt.go -/

theorem stringParts_eq (parts : List String) (cs : List PromptComponent) :
    stringParts parts cs = parts ++ cs.map renderComponent := by
  induction cs generalizing parts with
  | nil => simp [stringParts]
  | cons c rest ih => simp [stringParts, ih]

theorem stringsJoin_eq_intercalate (l : List String) (sep : String) :
    stringsJoin l sep = sep.intercalate l := by
  cases l with
  | nil => rfl
  | cons e rest =>
    simp only [stringsJoin, String.intercalate]
    induction rest generalizing e with
    | nil => rfl
    | cons x xs ih => simp only [List.foldl, String.intercalate.go]; exact ih _

theorem stringsJoin_append_singleton (l : List String) (x sep : String) (h : l ≠ []) :
    stringsJoin (l ++ [x]) sep = stringsJoin l sep ++ sep ++ x := by
  cases l with
  | nil => exact absurd rfl h
  | cons e rest => simp [stringsJoin, List.foldl_append]

theorem buildPrompt_components_ne_nil (input : String) (calls : List BuilderCall) :
    (buildPrompt input calls).Components ≠ [] := by
  unfold buildPrompt
  suffices h : ∀ p : Prompt, p.Components ≠ [] →
      (calls.foldl BuilderCall.apply p).Components ≠ [] from h _ (by simp [NewPrompt])
  induction calls with
  | nil => intro p hp; simpa using hp
  | cons c rest ih =>
    intro p hp
    simp only [List.foldl]
    apply ih
    cases c <;> simp [BuilderCall.apply, Prompt.WithContext, Prompt.WithDirective,
      Prompt.WithOutput, Prompt.WithExample]

theorem apply_components (p : Prompt) (c : BuilderCall) :
    ∃ ty, (c.apply p).Components = p.Components ++ [{ Content := c.content, Type_ := ty }] ∧
      renderComponent { Content := c.content, Type_ := ty } = c.label ++ c.content := by
  cases c with
  | withContext s => exact ⟨"context", rfl, by simp [renderComponent, BuilderCall.label, BuilderCall.content]⟩
  | withDirective s => exact ⟨"directive", rfl, by simp [renderComponent, BuilderCall.label, BuilderCall.content]⟩
  | withOutput s => exact ⟨"output", rfl, by simp [renderComponent, BuilderCall.label, BuilderCall.content]⟩
  | withExample s => exact ⟨"example", rfl, by simp [renderComponent, BuilderCall.label, BuilderCall.content]⟩

/-- C9: for every prompt, `String()` is the renderings of the sections, in
insertion order, joined by a blank line, each section rendered by its type
label followed by its content; the prompt
`NewPrompt("Summarize this").WithContext("doc A").WithDirective("be concise")`
renders as "Summarize this\n\nContext: doc A\n\nDirective: be concise"; and for
every prompt built by `NewPrompt` and the `With*` calls, one more call renders
as the old rendering, a blank line, the label and the content. -/
theorem C9_prompt_string :
    (∀ p : Prompt, p.String =
        "\n\n".intercalate (p.Components.map fun c => sectionRendering c.Type_ c.Content)) ∧
    (((NewPrompt "Summarize this").WithContext "doc A").WithDirective "be concise").String =
        "Summarize this\n\nContext: doc A\n\nDirective: be concise" ∧
    (∀ (input : String) (calls : List BuilderCall) (c : BuilderCall),
        (c.apply (buildPrompt input calls)).String =
          (buildPrompt input calls).String ++ "\n\n" ++ c.label ++ c.content) := by
  refine ⟨?_, ?_, ?_⟩
  · intro p
    simp only [Prompt.String, stringParts_eq, stringsJoin_eq_intercalate, List.nil_append]
    rfl
  · decide
  · intro input calls c
    obtain ⟨ty, hc, hr⟩ := apply_components (buildPrompt input calls) c
    have hne := buildPrompt_components_ne_nil input calls
    simp only [Prompt.String, stringParts_eq, List.nil_append, hc, List.map_append,
      List.map_cons, List.map_nil, hr]
    rw [stringsJoin_append_singleton _ _ _ (by simpa using hne)]
    simp [String.append_assoc]

/-! ## Theorems: llm.go, the retry loop -/

theorem wrapInt_of_range (x : Int) (h1 : -9223372036854775808 ≤ x)
    (h2 : x < 9223372036854775808) : wrapInt x = x := by
  unfold wrapInt
  omega

theorem intersperse_replicate_succ {α : Type} (sep a : α) (n : Nat) :
    List.intersperse sep (List.replicate (n + 1) a) =
      (List.replicate n [a, sep]).flatten ++ [a] := by
  induction n with
  | zero => rfl
  | succ n ih =>
    have h : List.replicate (n + 1 + 1) a = a :: a :: List.replicate n a := rfl
    rw [h, List.intersperse_cons₂, ← List.replicate_succ, ih]
    simp [List.replicate_succ]

theorem flatten_replicate_snoc {α : Type} (xs : List α) (k : Nat) :
    (List.replicate k xs).flatten ++ xs = (List.replicate (k + 1) xs).flatten := by
  induction k with
  | zero => simp
  | succ k ih =>
    rw [List.replicate_succ, List.flatten_cons, List.append_assoc, ih]
    rfl

/-- Running the loop through `k` failing attempts whose waits all run to the
end brings it to the loop head with `attempt = k`. -/
theorem generateLoop_failed_run {V : Type} (l : LLMImpl V)
    (llmText : ErrorType → String → Option String → String) (env : Env)
    (prompt : Prompt) (ps : String) (r : Nat)
    (hmax : l.MaxRetries = (r : Int)) (hrange : (r : Int) < 9223372036854775808)
    (k : Nat) (hk : k ≤ r)
    (hfail : ∀ i < k, (l.attemptGenerate env i prompt.String).2 ≠ none)
    (hwait : ∀ j < k, env.wait j l.RetryDelay = .elapsed) (fuel : Nat) :
    ∃ lastErr : Option GoError,
      (∀ i, k = i + 1 → lastErr = (l.attemptGenerate env i prompt.String).2) ∧
      l.generateLoop llmText env prompt ps (k + fuel) 0 0 0 none [] =
        l.generateLoop llmText env prompt ps fuel (k : Int) k k lastErr
          (List.replicate k [Event.attempt, Event.waited l.RetryDelay]).flatten := by
  induction k generalizing fuel with
  | zero => exact ⟨none, by intro i h; omega, by simp⟩
  | succ k ih =>
    obtain ⟨le, _, hrun⟩ := ih (by omega) (fun i hi => hfail i (by omega))
      (fun j hj => hwait j (by omega)) (fuel + 1)
    have hf := hfail k (by omega)
    have hw := hwait k (by omega)
    rcases hatt : l.attemptGenerate env k prompt.String with ⟨res, _ | e⟩
    · rw [hatt] at hf; exact absurd rfl hf
    · refine ⟨some e, ?_, ?_⟩
      · intro i hi
        have : i = k := by omega
        subst this
        rw [hatt]
      · have e1 : k + 1 + fuel = k + (fuel + 1) := by omega
        rw [e1, hrun]
        have hle : (k : Int) ≤ l.MaxRetries := by rw [hmax]; omega
        have hlt : (k : Int) < l.MaxRetries := by rw [hmax]; omega
        have hwrap : wrapInt ((k : Int) + 1) = ((k + 1 : Nat) : Int) := by
          rw [wrapInt_of_range _ (by omega) (by omega)]; push_cast; rfl
        conv_lhs => unfold LLMImpl.generateLoop
        simp only [hle, hlt, if_true, hatt, hw, hwrap]
        rw [flatten_replicate_snoc]

/-- C1: with `MaxRetries = r >= 0` (and `r + 1` a Go `int`), when every attempt
fails and no wait is ended by the context, `Generate` returns (given fuel for
its `r + 2` loop tests) after exactly `r + 1` attempts separated by `r` waits of
`RetryDelay`, none after the last attempt, with empty text, the rendered
prompt, and the error "failed to generate after <r+1> attempts: " followed by
the text of the last attempt's error, which it wraps. -/
theorem C1_generate_exhausts_retries {V : Type} (l : LLMImpl V)
    (llmText : ErrorType → String → Option String → String) (env : Env)
    (prompt : Prompt) (r : Nat)
    (hmax : l.MaxRetries = (r : Int)) (hrange : (r : Int) + 1 < 9223372036854775808)
    (hfail : ∀ i ≤ r, (l.attemptGenerate env i prompt.String).2 ≠ none)
    (hwait : ∀ j < r, env.wait j l.RetryDelay = .elapsed) :
    ∃ lastErr : GoError,
      (l.attemptGenerate env r prompt.String).2 = some lastErr ∧
      ∀ extra : Nat, l.Generate llmText env (r + 2 + extra) prompt =
        some { response := ""
               fullPrompt := prompt.String
               err := some (.wrapError
                 ("failed to generate after " ++ fmtD ((r : Int) + 1) ++ " attempts: "
                   ++ lastErr.Error llmText) lastErr)
               trace := List.intersperse (Event.waited l.RetryDelay)
                 (List.replicate (r + 1) Event.attempt) } := by
  rcases hatt : l.attemptGenerate env r prompt.String with ⟨res, _ | e⟩
  · exact absurd (by rw [hatt]) (hfail r (le_refl r))
  · refine ⟨e, rfl, fun extra => ?_⟩
    obtain ⟨le, _, hrun⟩ := generateLoop_failed_run l llmText env prompt prompt.String r hmax
      (by omega) r (le_refl r) (fun i hi => hfail i (by omega)) hwait (2 + extra)
    have e1 : r + 2 + extra = r + (2 + extra) := by omega
    have e2 : 2 + extra = (extra + 1) + 1 := by omega
    unfold LLMImpl.Generate
    rw [e1, hrun, e2]
    have hle : (r : Int) ≤ l.MaxRetries := by rw [hmax]
    have hlt : ¬ ((r : Int) < l.MaxRetries) := by rw [hmax]; omega
    have hwrap : wrapInt ((r : Int) + 1) = (r : Int) + 1 :=
      wrapInt_of_range _ (by omega) (by omega)
    have hex : ¬ ((r : Int) + 1 ≤ l.MaxRetries) := by rw [hmax]; omega
    conv_lhs => unfold LLMImpl.generateLoop
    simp only [hle, hlt, if_true, if_false, hatt, hwrap]
    conv_lhs => unfold LLMImpl.generateLoop
    have hex2 : ¬ ((r : Int) + 1 ≤ (r : Int)) := by omega
    simp only [hex, hex2, if_false, fmtErrorfW, hmax, hwrap, intersperse_replicate_succ]

theorem C1_generate_exhausts_retries_witness :
    (∀ i ≤ 2, ((sampleLLM 2).attemptGenerate refusingEnv i
        (NewPrompt "ping").String).2 ≠ none) ∧
    ∃ lastErr : GoError,
      ((sampleLLM 2).attemptGenerate refusingEnv 2 (NewPrompt "ping").String).2 = some lastErr ∧
      ∀ extra : Nat, (sampleLLM 2).Generate sampleLLMText refusingEnv (2 + 2 + extra)
          (NewPrompt "ping") =
        some { response := ""
               fullPrompt := (NewPrompt "ping").String
               err := some (.wrapError
                 ("failed to generate after " ++ fmtD (((2 : Nat) : Int) + 1) ++ " attempts: "
                   ++ lastErr.Error sampleLLMText) lastErr)
               trace := List.intersperse (Event.waited (sampleLLM 2).RetryDelay)
                 (List.replicate (2 + 1) Event.attempt) } :=
  ⟨by intro i _; simp [LLMImpl.attemptGenerate, sampleLLM, sampleProvider, refusingEnv,
      NewLLMError],
   C1_generate_exhausts_retries (sampleLLM 2) sampleLLMText refusingEnv (NewPrompt "ping") 2
    rfl (by decide)
    (by intro i _; simp [LLMImpl.attemptGenerate, sampleLLM, sampleProvider, refusingEnv,
      NewLLMError])
    (by intro j _; rfl)⟩

/-- C2: with `MaxRetries = r >= 0` and `1 <= k <= r + 1`, when attempts 1..k-1
fail, the waits between them run to their end, and attempt k succeeds with text
`t`, `Generate` returns (given fuel for `k` loop tests) `(t, rendered prompt,
nil)` after exactly `k` attempts: the trace ends with the successful attempt
and the earlier failures leave no mark on the result. -/
theorem C2_generate_first_success {V : Type} (l : LLMImpl V)
    (llmText : ErrorType → String → Option String → String) (env : Env)
    (prompt : Prompt) (r k : Nat) (t : String)
    (hmax : l.MaxRetries = (r : Int)) (hrange : (r : Int) < 9223372036854775808)
    (hk1 : 1 ≤ k) (hk : k ≤ r + 1)
    (hfail : ∀ i < k - 1, (l.attemptGenerate env i prompt.String).2 ≠ none)
    (hwait : ∀ j < k - 1, env.wait j l.RetryDelay = .elapsed)
    (hsucc : l.attemptGenerate env (k - 1) prompt.String = (t, none)) :
    ∀ extra : Nat, l.Generate llmText env (k + extra) prompt =
      some { response := t
             fullPrompt := prompt.String
             err := none
             trace := List.intersperse (Event.waited l.RetryDelay)
               (List.replicate k Event.attempt) } := by
  intro extra
  obtain ⟨m, rfl⟩ : ∃ m, k = m + 1 := ⟨k - 1, by omega⟩
  simp only [Nat.add_sub_cancel] at hfail hwait hsucc
  obtain ⟨le, _, hrun⟩ := generateLoop_failed_run l llmText env prompt prompt.String r hmax
    hrange m (by omega) hfail hwait (extra + 1)
  have e1 : m + 1 + extra = m + (extra + 1) := by omega
  unfold LLMImpl.Generate
  rw [e1, hrun]
  have hle : (m : Int) ≤ l.MaxRetries := by rw [hmax]; omega
  conv_lhs => unfold LLMImpl.generateLoop
  simp only [hle, if_true, hsucc, intersperse_replicate_succ]

theorem C2_generate_first_success_witness :
    ∀ extra : Nat, (sampleLLM 2).Generate sampleLLMText thirdTimeEnv (3 + extra)
        (NewPrompt "ping") =
      some { response := "pong"
             fullPrompt := (NewPrompt "ping").String
             err := none
             trace := List.intersperse (Event.waited (sampleLLM 2).RetryDelay)
               (List.replicate 3 Event.attempt) } :=
  C2_generate_first_success (sampleLLM 2) sampleLLMText thirdTimeEnv (NewPrompt "ping") 2 3
    "pong" rfl (by decide) (by decide) (by decide)
    (by intro i hi
        have : i < 2 := hi
        simp [LLMImpl.attemptGenerate, sampleLLM, sampleProvider, thirdTimeEnv, NewLLMError,
          this])
    (by intro j _; rfl)
    (by decide)

/-- C3: with `MaxRetries = r >= 1` and `1 <= k <= r`, when attempts 1..k fail,
the waits before attempt k run to their end and the context is done during the
wait after attempt k, `Generate` returns (given fuel for `k` loop tests) empty
text, the rendered prompt and exactly the context's error; the trace holds `k`
attempts and ends with the cancelled wait, so attempt k+1 is never issued. -/
theorem C3_generate_cancelled_wait {V : Type} (l : LLMImpl V)
    (llmText : ErrorType → String → Option String → String) (env : Env)
    (prompt : Prompt) (r k : Nat) (ctxErr : GoError)
    (hmax : l.MaxRetries = (r : Int)) (hrange : (r : Int) < 9223372036854775808)
    (hk1 : 1 ≤ k) (hk : k ≤ r)
    (hfail : ∀ i < k, (l.attemptGenerate env i prompt.String).2 ≠ none)
    (hwait : ∀ j < k - 1, env.wait j l.RetryDelay = .elapsed)
    (hdone : env.wait (k - 1) l.RetryDelay = .ctxDone ctxErr) :
    ∀ extra : Nat, l.Generate llmText env (k + extra) prompt =
      some { response := ""
             fullPrompt := prompt.String
             err := some ctxErr
             trace := List.intersperse (Event.waited l.RetryDelay)
               (List.replicate k Event.attempt) ++ [Event.ctxDone] } := by
  intro extra
  obtain ⟨m, rfl⟩ : ∃ m, k = m + 1 := ⟨k - 1, by omega⟩
  simp only [Nat.add_sub_cancel] at hwait hdone
  obtain ⟨le, _, hrun⟩ := generateLoop_failed_run l llmText env prompt prompt.String r hmax
    hrange m (by omega) (fun i hi => hfail i (by omega)) hwait (extra + 1)
  have e1 : m + 1 + extra = m + (extra + 1) := by omega
  unfold LLMImpl.Generate
  rw [e1, hrun]
  have hle : (m : Int) ≤ l.MaxRetries := by rw [hmax]; omega
  have hlt : (m : Int) < l.MaxRetries := by rw [hmax]; omega
  rcases hatt : l.attemptGenerate env m prompt.String with ⟨res, _ | e⟩
  · exact absurd (by rw [hatt]) (hfail m (by omega))
  · conv_lhs => unfold LLMImpl.generateLoop
    simp only [hle, hlt, if_true, hatt, hdone, intersperse_replicate_succ]
    simp

theorem C3_generate_cancelled_wait_witness :
    ∀ extra : Nat, (sampleLLM 3).Generate sampleLLMText cancellingEnv (2 + extra)
        (NewPrompt "ping") =
      some { response := ""
             fullPrompt := (NewPrompt "ping").String
             err := some (.errorString "context canceled")
             trace := List.intersperse (Event.waited (sampleLLM 3).RetryDelay)
               (List.replicate 2 Event.attempt) ++ [Event.ctxDone] } :=
  C3_generate_cancelled_wait (sampleLLM 3) sampleLLMText cancellingEnv (NewPrompt "ping") 3 2
    (.errorString "context canceled") rfl (by decide) (by decide) (by decide)
    (by intro i _; simp [LLMImpl.attemptGenerate, sampleLLM, sampleProvider, cancellingEnv,
      NewLLMError])
    (by intro j hj
        have : j = 0 := by omega
        subst this; rfl)
    rfl

/-! ## Theorems: llm.go, one attempt -/

/-- C4, as the code has it: for an attempt whose request is prepared, created
and sent without error and whose body is read in full, if the status code is
exactly 200 the outcome is the provider's `ParseResponse` of the body (the text
on success, a Response-type error wrapping the parse error otherwise); for any
other status code the attempt fails with the API-type error whose message is
"API error: status code <code>", whatever `ParseResponse` is. -/
theorem C4_attempt_status {V : Type} (l : LLMImpl V) (env : Env) (n : Nat)
    (prompt reqBody body : String) (resp : HttpResponse)
    (hprep : l.Provider.PrepareRequest prompt l.Options = (reqBody, none))
    (hnew : env.newRequest n "POST" l.Provider.Endpoint reqBody = none)
    (hdo : env.clientDo n (l.request reqBody) = .ok resp)
    (hread : resp.ReadAll = (body, none)) :
    (resp.StatusCode = 200 →
      (∀ text, l.Provider.ParseResponse body = (text, none) →
        l.attemptGenerate env n prompt = (text, none)) ∧
      (∀ text perr, l.Provider.ParseResponse body = (text, some perr) →
        l.attemptGenerate env n prompt =
          ("", some (.llmError .ErrorTypeResponse "failed to parse response" perr)))) ∧
    (resp.StatusCode ≠ 200 →
      ∀ parse : String → String × Option GoError,
        (l.withParseResponse parse).attemptGenerate env n prompt =
          ("", some (.llmErrorNil .ErrorTypeAPI
            ("API error: status code " ++ fmtD resp.StatusCode)))) := by
  refine ⟨fun h200 => ⟨fun text hp => ?_, fun text perr hp => ?_⟩, fun hne parse => ?_⟩
  · simp [LLMImpl.attemptGenerate, LLMImpl.request, StatusOK] at hdo ⊢
    simp [hprep, hnew, hdo, hread, h200, hp]
  · simp [LLMImpl.attemptGenerate, LLMImpl.request, StatusOK] at hdo ⊢
    simp [hprep, hnew, hdo, hread, h200, hp, NewLLMError]
  · simp [LLMImpl.attemptGenerate, LLMImpl.request, LLMImpl.withParseResponse, StatusOK]
      at hdo ⊢
    simp [hprep, hnew, hdo, hread, hne, NewLLMError]

theorem C4_attempt_status_witness :
    ((200 : Int) = 200 →
      (∀ text, (sampleLLM 2).Provider.ParseResponse "pong" = (text, none) →
        (sampleLLM 2).attemptGenerate thirdTimeEnv 2 "ping" = (text, none)) ∧
      (∀ text perr, (sampleLLM 2).Provider.ParseResponse "pong" = (text, some perr) →
        (sampleLLM 2).attemptGenerate thirdTimeEnv 2 "ping" =
          ("", some (.llmError .ErrorTypeResponse "failed to parse response" perr)))) ∧
    ((200 : Int) ≠ 200 →
      ∀ parse : String → String × Option GoError,
        ((sampleLLM 2).withParseResponse parse).attemptGenerate thirdTimeEnv 2 "ping" =
          ("", some (.llmErrorNil .ErrorTypeAPI
            ("API error: status code " ++ fmtD 200)))) :=
  C4_attempt_status (sampleLLM 2) thirdTimeEnv 2 "ping" "ping" "pong"
    { StatusCode := 200, ReadAll := ("pong", none) } rfl rfl rfl rfl

/-- C4 as stated fails: a response with status 201 (a 2xx code), sent and read
without error, whose body the provider parses to "pong", makes the attempt fail
with the API-type error for status 201 instead of yielding the parsed text. -/
theorem C4_counterexample_status_201 :
    (200 ≤ (201 : Int) ∧ (201 : Int) ≤ 299) ∧
    (sampleLLM 0).Provider.PrepareRequest "ping" (sampleLLM 0).Options = ("ping", none) ∧
    createdEnv.newRequest 0 "POST" (sampleLLM 0).Provider.Endpoint "ping" = none ∧
    createdEnv.clientDo 0 ((sampleLLM 0).request "ping") =
      .ok { StatusCode := 201, ReadAll := ("pong", none) } ∧
    (sampleLLM 0).Provider.ParseResponse "pong" = ("pong", none) ∧
    (sampleLLM 0).attemptGenerate createdEnv 0 "ping" =
      ("", some (.llmErrorNil .ErrorTypeAPI "API error: status code 201")) ∧
    (sampleLLM 0).attemptGenerate createdEnv 0 "ping" ≠
      (sampleLLM 0).Provider.ParseResponse "pong" := by
  refine ⟨by decide, rfl, rfl, rfl, rfl, by decide, by decide⟩

end Llm
